import Mathlib

/- Shallow embedding of the ModelSignature JavaScript SDK core:
   the token codec (src/utils.ts), the verification transport
   (src/client.ts) and the policy engine (src/policy.ts).
   JavaScript numbers are modelled as exact integers (timestamps,
   status codes) or rationals (backoff delays); JavaScript strings
   are modelled as Lean strings, except tokens, which are modelled
   as character lists so that splitting can be reasoned about. -/

/-- Decoded JWT payload as produced by parseJWT (src/utils.ts, lines 23-36):
an untrusted JSON object, so each field may be absent.  Only the two numeric
fields read by isTokenExpired and getTokenAge are modelled; the remaining
JSON fields are never inspected by the functions under study. -/
structure JWTPayload where
  iat : Option Int := none
  exp : Option Int := none
deriving Repr, DecidableEq

/-- isTokenExpired (src/utils.ts, lines 43-51).  The source decodes the token
with parseJWT and reads the clock via Date.now(); here the decode result and
the current time in seconds are passed explicitly.  The JavaScript guard is
`!payload || !payload.exp`; a JavaScript number is falsy exactly when it is 0,
so a present exp equal to 0 also yields null. -/
def isTokenExpired (now : Int) (payload : Option JWTPayload) : Option Bool :=
  match payload with
  | none => none
  | some p =>
    match p.exp with
    | none => none
    | some e => if e == 0 then none else some (decide (e < now))

/-- getTokenAge (src/utils.ts, lines 58-66).  Same conventions as
isTokenExpired: the guard `!payload || !payload.iat` treats a present iat
equal to 0 as absent, and the result is `now - payload.iat`. -/
def getTokenAge (now : Int) (payload : Option JWTPayload) : Option Int :=
  match payload with
  | none => none
  | some p =>
    match p.iat with
    | none => none
    | some i => if i == 0 then none else some (now - i)

/-- The character class of the regular expression used by
isValidTokenFormat (src/utils.ts, line 84). -/
def isBase64UrlChar (c : Char) : Bool :=
  ('A' ≤ c && c ≤ 'Z') || ('a' ≤ c && c ≤ 'z') || ('0' ≤ c && c ≤ '9')
    || c == '_' || c == '-'

/-- isValidTokenFormat (src/utils.ts, lines 73-86), on the token's character
list.  The source first rejects non-strings and the empty string (`!token`),
then splits on a period and requires exactly 3 parts, each matching the
anchored regular expression, i.e. non-empty and drawn from the base64url
alphabet.  JavaScript's String.split on a single-character separator agrees
with List.splitOn on the character list. -/
def isValidTokenFormat (token : List Char) : Bool :=
  if token.isEmpty then false
  else
    let parts := token.splitOn '.'
    parts.length == 3 && parts.all (fun part => !part.isEmpty && part.all isBase64UrlChar)

/-- A non-empty segment over the base64url alphabet, as the specification
describes a token segment. -/
def Base64UrlSegment (s : List Char) : Prop :=
  s ≠ [] ∧ ∀ c ∈ s, isBase64UrlChar c = true

/-- The specification's reading of a structurally valid token: exactly three
dot-separated non-empty segments, each over the base64url alphabet. -/
def ValidFormatSpec (token : List Char) : Prop :=
  ∃ a b c, token = a ++ '.' :: (b ++ '.' :: c) ∧
    Base64UrlSegment a ∧ Base64UrlSegment b ∧ Base64UrlSegment c

/-- getBackoffDelay (src/utils.ts, lines 102-106).  `rand` stands for the
value drawn from Math.random(), which lies in [0, 1); the delay is
`min(baseDelay * 2 ^ attempt, maxDelay) + rand * 1000`.  The default
arguments of the source are baseDelay = 1000 and maxDelay = 10000, supplied
explicitly at call sites here. -/
def getBackoffDelay (attempt : Nat) (baseDelay maxDelay rand : ℚ) : ℚ :=
  min (baseDelay * 2 ^ attempt) maxDelay + rand * 1000

/-- Error codes carried by ModelSignatureError (src/types.ts): the string
codes INVALID_FORMAT, INVALID_RESPONSE, HTTP_ERROR, REQUEST_FAILED and
POLICY_VIOLATION. -/
inductive ErrorCode where
  | invalidFormat
  | invalidResponse
  | httpError
  | requestFailed
  | policyViolation
deriving Repr, DecidableEq

/-- ModelSignatureError (src/types.ts): a message, an error code and an
optional HTTP status code. -/
structure MSError where
  message : String
  code : ErrorCode
  statusCode : Option Nat := none
deriving Repr, DecidableEq

/-- The observable outcome of one fetch attempt inside makeRequest
(src/client.ts, lines 81-117), after response-body error extraction:
a parsed 2xx payload, a non-ok response turned into an HTTP_ERROR with the
extracted message and the response status, or a transport-level failure
(network error, or the timeout-triggered abort), which reaches the catch
block as a plain Error with the given message. -/
inductive AttemptOutcome (α : Type) where
  | success (value : α)
  | httpFailure (status : Nat) (message : String)
  | netFailure (message : String)
deriving Repr, DecidableEq

/-- The REQUEST_FAILED message built after the loop of makeRequest
(src/client.ts, lines 138-141). -/
def requestFailedMessage (retries : Nat) (lastMessage : String) : String :=
  "Request failed after " ++ toString (retries + 1) ++ " attempts: " ++ lastMessage

/-- The retry loop of makeRequest (src/client.ts, lines 80-135).  `oracle`
gives the outcome of the attempt with a given 0-based index; `attempt` is the
loop counter; `fuel` only forces termination and equals
`retries + 1 - attempt` at every call, so the 0 branch is never reached from
makeRequest.  A failed attempt is rethrown at once when it is a
ModelSignatureError whose statusCode is truthy (non-zero) and < 500
(src/client.ts, line 122); otherwise the loop breaks on the last attempt and
the REQUEST_FAILED error wraps the last failure's message, and retries
earlier attempts after a backoff sleep, which has no observable effect here.
The second component counts the fetch attempts actually performed. -/
def makeRequestGo (oracle : Nat → AttemptOutcome α) (retries : Nat) :
    Nat → Nat → Except MSError α × Nat
  | attempt, fuel + 1 =>
    match oracle attempt with
    | .success v => (.ok v, attempt + 1)
    | .httpFailure status msg =>
      if status != 0 && status < 500 then
        (.error ⟨msg, .httpError, some status⟩, attempt + 1)
      else if attempt == retries then
        (.error ⟨requestFailedMessage retries msg, .requestFailed, none⟩, attempt + 1)
      else
        makeRequestGo oracle retries (attempt + 1) fuel
    | .netFailure msg =>
      if attempt == retries then
        (.error ⟨requestFailedMessage retries msg, .requestFailed, none⟩, attempt + 1)
      else
        makeRequestGo oracle retries (attempt + 1) fuel
  | attempt, 0 => (.error ⟨requestFailedMessage retries "", .requestFailed, none⟩, attempt)

/-- makeRequest (src/client.ts, lines 76-142): run the attempt loop from
attempt 0 with enough fuel for the `retries + 1` iterations of the source's
for-loop. -/
def makeRequest (oracle : Nat → AttemptOutcome α) (retries : Nat) :
    Except MSError α × Nat :=
  makeRequestGo oracle retries 0 (retries + 1)

/-- Whether a failed attempt is retried by makeRequest: everything except a
ModelSignatureError with a truthy statusCode below 500 (src/client.ts,
line 122).  A successful attempt is not a failure and is never retried. -/
def retryableOutcome : AttemptOutcome α → Bool
  | .success _ => false
  | .httpFailure status _ => status == 0 || 500 ≤ status
  | .netFailure _ => true

/-- The message of the error a failed attempt raises (empty for a success,
which raises nothing). -/
def outcomeMessage : AttemptOutcome α → String
  | .success _ => ""
  | .httpFailure _ msg => msg
  | .netFailure msg => msg

/-- ModelSignatureConfig (src/types.ts): the optional constructor argument
of ModelSignatureClient. -/
structure ModelSignatureConfig where
  apiBaseUrl : Option String := none
  timeout : Option Int := none
  retries : Option Int := none
deriving Repr, DecidableEq

/-- JavaScript `x || d` on a possibly-absent number: absent, 0 (and NaN,
which has no integer model) are falsy and select the default. -/
def jsOrInt (x : Option Int) (d : Int) : Int :=
  match x with
  | none => d
  | some v => if v == 0 then d else v

/-- JavaScript `x || d` on a possibly-absent string: absent and the empty
string are falsy and select the default. -/
def jsOrStr (x : Option String) (d : String) : String :=
  match x with
  | none => d
  | some v => if v == "" then d else v

/-- The resolved Required config held by a ModelSignatureClient. -/
structure ClientConfig where
  apiBaseUrl : String
  timeout : Int
  retries : Int
deriving Repr, DecidableEq

/-- The ModelSignatureClient constructor (src/client.ts, lines 21-27):
each field falls back to its default through JavaScript `||`. -/
def mkClientConfig (config : ModelSignatureConfig) : ClientConfig :=
  { apiBaseUrl :=
      jsOrStr config.apiBaseUrl "https://modelsignature-api-541734326273.us-central1.run.app"
    timeout := jsOrInt config.timeout 10000
    retries := jsOrInt config.retries 3 }

/-- The error thrown by verifyToken and bindResponse on a malformed token
(src/client.ts, lines 36 and 52). -/
def invalidFormatError : MSError :=
  ⟨"Invalid token format", .invalidFormat, none⟩

/-- verifyToken (src/client.ts, lines 34-42): reject a malformed token with
INVALID_FORMAT before any network activity, else run makeRequest.  The result
is paired with the number of fetch attempts issued. -/
def verifyToken (oracle : Nat → AttemptOutcome α) (retries : Nat)
    (token : List Char) : Except MSError α × Nat :=
  if !isValidTokenFormat token then (.error invalidFormatError, 0)
  else makeRequest oracle retries

/-- bindResponse (src/client.ts, lines 50-68): reject a malformed token with
INVALID_FORMAT, then an empty response text with INVALID_RESPONSE (the
`typeof` arm of the source's check is unrepresentable for a typed string),
both before any network activity; else run makeRequest. -/
def bindResponse (oracle : Nat → AttemptOutcome α) (retries : Nat)
    (token : List Char) (responseText : String) : Except MSError α × Nat :=
  if !isValidTokenFormat token then (.error invalidFormatError, 0)
  else if responseText == "" then
    (.error ⟨"Response text must be a non-empty string", .invalidResponse, none⟩, 0)
  else makeRequest oracle retries

/-- JWTClaims (src/types.ts): the typed claims carried inside a
VerificationResult.  Optional fields model the optional properties of the
interface; a JavaScript string property set to the empty string is falsy,
which the policy checks below reproduce. -/
structure JWTClaims where
  model_id : String := ""
  provider_id : String := ""
  user_fp : String := ""
  deployment_id : Option String := none
  model_digest : Option String := none
  response_hash : Option String := none
  bound_to_response : Option Bool := none
  iat : Int := 0
  exp : Int := 0
  jti : String := ""
deriving Repr, DecidableEq

/-- ModelInfo (src/types.ts), reduced to the fields the policy engine can
observe. -/
structure ModelInfo where
  id : String := ""
  name : String := ""
  version : String := ""
deriving Repr, DecidableEq

/-- ProviderInfo (src/types.ts), reduced to the fields the policy engine can
observe. -/
structure ProviderInfo where
  id : String := ""
  name : String := ""
deriving Repr, DecidableEq

/-- The bundle_check status values of src/types.ts. -/
inductive BundleStatus where
  | unknown
  | verified
  | invalid
  | error
deriving Repr, DecidableEq

/-- The string form of a bundle status, as interpolated into the bundle
violation message. -/
def bundleStatusString : BundleStatus → String
  | .unknown => "unknown"
  | .verified => "verified"
  | .invalid => "invalid"
  | .error => "error"

/-- BundleCheck (src/types.ts). -/
structure BundleCheck where
  status : BundleStatus
  last_checked : Option String := none
deriving Repr, DecidableEq

/-- VerificationResult (src/types.ts). -/
structure VerificationResult where
  valid : Bool
  claims : Option JWTClaims := none
  model : Option ModelInfo := none
  provider : Option ProviderInfo := none
  bundle_check : Option BundleCheck := none
  error : Option String := none
deriving Repr, DecidableEq

/-- The resolved policy configuration held by a PolicyEnforcer after its
constructor merged the caller's optional config over the built-in defaults
(src/policy.ts, lines 180-192). -/
structure PolicyConfig where
  requireDeploymentId : Bool
  requireModelDigest : Bool
  requireBundleVerification : Bool
  allowedProviders : List String
  allowedModels : List String
  maxTokenAge : Option Int
  failClosed : Bool
deriving Repr, DecidableEq

/-- PolicyConfig as the caller passes it (src/types.ts): every property is
optional; `none` models an absent property. -/
structure PolicyConfigInit where
  requireDeploymentId : Option Bool := none
  requireModelDigest : Option Bool := none
  requireBundleVerification : Option Bool := none
  allowedProviders : Option (List String) := none
  allowedModels : Option (List String) := none
  maxTokenAge : Option Int := none
  failClosed : Option Bool := none
deriving Repr, DecidableEq

/-- One field of a JavaScript object spread `{ ...base, ...override }`: the
override's property wins when present. -/
def spreadField (override base : Option α) : Option α :=
  match override with
  | none => base
  | some v => v

/-- The PolicyEnforcer constructor (src/policy.ts, lines 180-192): spread
the caller's config over the defaults requireDeploymentId = false,
requireModelDigest = false, requireBundleVerification = false,
allowedProviders = [], allowedModels = [], maxTokenAge = 900,
failClosed = true. -/
def mkPolicyConfig (config : PolicyConfigInit) : PolicyConfig :=
  { requireDeploymentId := config.requireDeploymentId.getD false
    requireModelDigest := config.requireModelDigest.getD false
    requireBundleVerification := config.requireBundleVerification.getD false
    allowedProviders := config.allowedProviders.getD []
    allowedModels := config.allowedModels.getD []
    maxTokenAge := some (config.maxTokenAge.getD 900)
    failClosed := config.failClosed.getD true }

/-- createSecurePolicy (src/policy.ts, lines 390-401): spread the caller's
overrides over the secure preset failClosed = true,
requireDeploymentId = true, requireModelDigest = true, maxTokenAge = 300,
then resolve through the PolicyEnforcer constructor. -/
def createSecurePolicyConfig (config : PolicyConfigInit) : PolicyConfig :=
  mkPolicyConfig
    { requireDeploymentId := spreadField config.requireDeploymentId (some true)
      requireModelDigest := spreadField config.requireModelDigest (some true)
      requireBundleVerification := spreadField config.requireBundleVerification none
      allowedProviders := spreadField config.allowedProviders none
      allowedModels := spreadField config.allowedModels none
      maxTokenAge := spreadField config.maxTokenAge (some 300)
      failClosed := spreadField config.failClosed (some true) }

/-- JavaScript truthiness of a possibly-absent string property: absent and
the empty string are falsy. -/
def jsFalsyStr (s : Option String) : Bool :=
  match s with
  | none => true
  | some v => v == ""

/-- The too-old violation message of src/policy.ts, line 275. -/
def tooOldMessage (age maxAge : Int) : String :=
  "Token is too old: " ++ toString age ++ "s > " ++ toString maxAge ++ "s"

/-- The bundle-status violation message of src/policy.ts, line 294. -/
def bundleFailedMessage (status : BundleStatus) : String :=
  "Bundle verification failed: status is \x27" ++ bundleStatusString status ++ "\x27"

/-- The provider allowlist violation message of src/policy.ts, line 301. -/
def providerNotAllowedMessage (id : String) : String :=
  "Provider \x27" ++ id ++ "\x27 is not in allowed list"

/-- The model allowlist violation message of src/policy.ts, line 308. -/
def modelNotAllowedMessage (id : String) : String :=
  "Model \x27" ++ id ++ "\x27 is not in allowed list"

/-- The token-age rule of checkTokenPolicy (src/policy.ts, lines 270-277):
only runs when maxTokenAge is defined; the age comes from getTokenAge applied
to the local, unverified decode of the token string. -/
def ageViolations (cfg : PolicyConfig) (now : Int)
    (localPayload : Option JWTPayload) : List String :=
  match cfg.maxTokenAge with
  | none => []
  | some maxAge =>
    match getTokenAge now localPayload with
    | none => ["Unable to determine token age"]
    | some age => if age > maxAge then [tooOldMessage age maxAge] else []

/-- The deployment-id rule of checkTokenPolicy (src/policy.ts,
lines 280-282). -/
def deploymentViolations (cfg : PolicyConfig) (claims : JWTClaims) : List String :=
  if cfg.requireDeploymentId && jsFalsyStr claims.deployment_id then
    ["Deployment ID is required but not present in token"]
  else []

/-- The model-digest rule of checkTokenPolicy (src/policy.ts,
lines 285-287). -/
def digestViolations (cfg : PolicyConfig) (claims : JWTClaims) : List String :=
  if cfg.requireModelDigest && jsFalsyStr claims.model_digest then
    ["Model digest is required but not present in token"]
  else []

/-- The bundle rule of checkTokenPolicy (src/policy.ts, lines 290-296): the
whole rule is guarded by requireBundleVerification; inside the guard a
missing bundle_check and a status other than verified each flag. -/
def bundleViolations (cfg : PolicyConfig) (bundleCheck : Option BundleCheck) : List String :=
  if cfg.requireBundleVerification then
    match bundleCheck with
    | none => ["Bundle verification is required but no bundle information available"]
    | some bc =>
      if bc.status != .verified then [bundleFailedMessage bc.status] else []
  else []

/-- The provider allowlist rule of checkTokenPolicy (src/policy.ts,
lines 299-303).  `provider?.id || 'unknown'` renders an absent provider, and
a present provider with an empty id, as unknown. -/
def providerViolations (cfg : PolicyConfig) (provider : Option ProviderInfo) : List String :=
  if !cfg.allowedProviders.isEmpty then
    match provider with
    | none => [providerNotAllowedMessage "unknown"]
    | some p =>
      if !cfg.allowedProviders.contains p.id then
        [providerNotAllowedMessage (if p.id == "" then "unknown" else p.id)]
      else []
  else []

/-- The model allowlist rule of checkTokenPolicy (src/policy.ts,
lines 306-310). -/
def modelViolations (cfg : PolicyConfig) (model : Option ModelInfo) : List String :=
  if !cfg.allowedModels.isEmpty then
    match model with
    | none => [modelNotAllowedMessage "unknown"]
    | some m =>
      if !cfg.allowedModels.contains m.id then
        [modelNotAllowedMessage (if m.id == "" then "unknown" else m.id)]
      else []
  else []

/-- checkTokenPolicy (src/policy.ts, lines 254-311): absent claims
short-circuit with a single violation; otherwise the six rules append their
violations in source order.  `localPayload` is the parseJWT decode of the
token string, which the source reaches through getTokenAge(token). -/
def checkTokenPolicy (cfg : PolicyConfig) (now : Int)
    (localPayload : Option JWTPayload) (v : VerificationResult) : List String :=
  match v.claims with
  | none => ["No claims found in token"]
  | some claims =>
    ageViolations cfg now localPayload
      ++ deploymentViolations cfg claims
      ++ digestViolations cfg claims
      ++ bundleViolations cfg v.bundle_check
      ++ providerViolations cfg v.provider
      ++ modelViolations cfg v.model

/-- PolicyResult (src/types.ts). -/
structure PolicyResult where
  allowed : Bool
  reasons : List String
  verification : VerificationResult
deriving Repr, DecidableEq

/-- buildResult (src/policy.ts, lines 320-330). -/
def buildResult (allowed : Bool) (violations : List String)
    (verification : VerificationResult) : PolicyResult :=
  { allowed := allowed, reasons := violations, verification := verification }

/-- PolicyViolationError (src/types.ts): the signal raised in fail-closed
mode, carrying the joined message and the full ordered violation list. -/
structure PolicyViolationError where
  message : String
  violations : List String
deriving Repr, DecidableEq

/-- Whether the first list is an initial run of the second. -/
def startsWithChars : List Char → List Char → Bool
  | [], _ => true
  | _ :: _, [] => false
  | p :: ps, c :: cs => p == c && startsWithChars ps cs

/-- Whether the pattern occurs contiguously in the list, as JavaScript's
String.includes. -/
def containsChars (pat : List Char) : List Char → Bool
  | [] => pat.isEmpty
  | c :: rest => startsWithChars pat (c :: rest) || containsChars pat rest

/-- The capture of the JavaScript regular expression /attempts: (.+)$/ on a
character list: scanning left to right, the first position at which the
literal "attempts: " is followed by a non-empty newline-free run reaching the
end of the string yields that run.  Without the m flag, $ only matches at the
end of the input, and . matches everything except a newline. -/
def attemptsTailMatch : List Char → Option (List Char)
  | [] => none
  | c :: rest =>
    let pat := "attempts: ".toList
    let tail := List.drop pat.length (c :: rest)
    if startsWithChars pat (c :: rest) && !tail.isEmpty
        && tail.all (fun ch => ch != '\n') then
      some tail
    else attemptsTailMatch rest

/-- The error-message rewrite in the catch block of enforcePolicy
(src/policy.ts, lines 216-224): when the message contains both
"Request failed after" and "attempts:", replace it by the capture of
/attempts: (.+)$/ when that regular expression matches. -/
def extractVerifyErrorMessage (msg : String) : String :=
  let cs := msg.toList
  if containsChars ("Request failed after".toList) cs
      && containsChars ("attempts:".toList) cs then
    match attemptsTailMatch cs with
    | some tail => String.mk tail
    | none => msg
  else msg

/-- JavaScript template interpolation of a possibly-undefined string:
an absent value prints as "undefined". -/
def jsTemplateOptStr (s : Option String) : String :=
  match s with
  | none => "undefined"
  | some v => v

/-- How the call to verifyToken inside enforcePolicy concluded: either the
promise resolved to a VerificationResult, or it rejected with an error. -/
inductive VerifyOutcome where
  | returned (v : VerificationResult)
  | raised (e : MSError)
deriving Repr, DecidableEq

/-- The shared tail of enforcePolicy (src/policy.ts, lines 234-245):
allowed iff no violations were collected; in fail-closed mode a disallowed
evaluation raises PolicyViolationError with the comma-joined message and the
full ordered violation list, otherwise the built PolicyResult is returned. -/
def enforceTail (cfg : PolicyConfig) (violations : List String)
    (verification : VerificationResult) : Except PolicyViolationError PolicyResult :=
  let allowed := violations.isEmpty
  if !allowed && cfg.failClosed then
    .error ⟨"Policy violation: " ++ String.intercalate ", " violations, violations⟩
  else
    .ok (buildResult allowed violations verification)

/-- enforcePolicy (src/policy.ts, lines 199-246).  When verification
resolves with valid = false, the source pushes the verification-failed reason
and returns the built result directly (line 209), before the fail-closed
check is ever reached.  When verification resolves with valid = true, the
rule checks run and the shared tail decides the disposition.  When
verification raises, the catch block rewrites the message, records the
request-failed reason with a synthetic failed VerificationResult, and falls
through to the shared tail. -/
def enforcePolicy (cfg : PolicyConfig) (now : Int)
    (localPayload : Option JWTPayload) (outcome : VerifyOutcome) :
    Except PolicyViolationError PolicyResult :=
  match outcome with
  | .returned verification =>
    if !verification.valid then
      .ok (buildResult false
        ["Token verification failed: " ++ jsTemplateOptStr verification.error]
        verification)
    else
      enforceTail cfg (checkTokenPolicy cfg now localPayload verification) verification
  | .raised e =>
    let errorMessage := extractVerifyErrorMessage e.message
    enforceTail cfg ["Verification request failed: " ++ errorMessage]
      { valid := false, error := some errorMessage }

/-- A fail-closed policy configuration with no rules switched on, as the
default PolicyEnforcer constructor yields apart from maxTokenAge, which is
left unset here to keep the age rule out of the evaluation under study. -/
def failClosedBareConfig : PolicyConfig :=
  { requireDeploymentId := false
    requireModelDigest := false
    requireBundleVerification := false
    allowedProviders := []
    allowedModels := []
    maxTokenAge := none
    failClosed := true }

/-- The same bare configuration in fail-open mode. -/
def failOpenBareConfig : PolicyConfig :=
  { failClosedBareConfig with failClosed := false }

/-- A fail-open configuration that only requires bundle verification. -/
def bundleOnlyConfig : PolicyConfig :=
  { failOpenBareConfig with requireBundleVerification := true }

/-- A fail-open configuration that only bounds the token age, at 300
seconds. -/
def maxAgeOnlyConfig : PolicyConfig :=
  { failOpenBareConfig with maxTokenAge := some 300 }

/-- A verification result that the authority answered with valid = false. -/
def invalidVerification : VerificationResult :=
  { valid := false, error := some "Token expired" }

/-- A verification result with valid = true, default claims and an invalid
bundle check. -/
def invalidBundleVerification : VerificationResult :=
  { valid := true, claims := some {}, bundle_check := some ⟨.invalid, none⟩ }

/-- A verification result with valid = true whose claims carry
issued_at = 1990. -/
def verifiedIatVerification : VerificationResult :=
  { valid := true, claims := some { iat := 1990 } }

/-- A verification result with valid = true and default claims. -/
def plainValidVerification : VerificationResult :=
  { valid := true, claims := some {} }

/-- A locally decoded payload whose issued_at is 1000. -/
def localIatPayload : JWTPayload := { iat := some 1000 }

/-- An attempt oracle whose first attempt fails at the transport level and
whose second attempt receives HTTP 404. -/
def mixedFailureOracle : Nat → AttemptOutcome Nat := fun i =>
  if i == 0 then .netFailure "connection reset" else .httpFailure 404 "not found"

/-- An attempt oracle that always fails retryably: HTTP 503 first, then
network timeouts. -/
def alwaysRetryableOracle : Nat → AttemptOutcome Nat := fun i =>
  if i == 0 then .httpFailure 503 "service unavailable" else .netFailure "timeout"

/-- An attempt oracle that always fails at the transport level. -/
def alwaysNetFailureOracle : Nat → AttemptOutcome Nat := fun _ => .netFailure "net down"

/-- C6: for every attempt index and every Math.random() draw in [0, 1), the
backoff delay equals min(1000 * 2 ^ attempt, 10000) plus a jitter in
[0, 1000), hence lies in the half-open interval
[min(1000 * 2 ^ attempt, 10000), min(1000 * 2 ^ attempt, 10000) + 1000) and
never exceeds 11000 ms. -/
theorem claim6_backoff_delay_bounds (attempt : Nat) (rand : ℚ)
    (h0 : 0 ≤ rand) (h1 : rand < 1) :
    min (1000 * 2 ^ attempt) 10000 ≤ getBackoffDelay attempt 1000 10000 rand ∧
    getBackoffDelay attempt 1000 10000 rand < min (1000 * 2 ^ attempt) 10000 + 1000 ∧
    getBackoffDelay attempt 1000 10000 rand < 11000 := by
  unfold getBackoffDelay
  have hj0 : (0 : ℚ) ≤ rand * 1000 := by positivity
  have hj1 : rand * 1000 < 1000 := by nlinarith
  have hcap : min ((1000 : ℚ) * 2 ^ attempt) 10000 ≤ 10000 := min_le_right _ _
  exact ⟨by linarith, by linarith, by linarith⟩

/-- Witness for C6 at attempt 5 and rand 1/2. -/
theorem claim6_backoff_delay_bounds_witness :
    min ((1000 : ℚ) * 2 ^ 5) 10000 ≤ getBackoffDelay 5 1000 10000 (1 / 2) ∧
    getBackoffDelay 5 1000 10000 (1 / 2) < min ((1000 : ℚ) * 2 ^ 5) 10000 + 1000 ∧
    getBackoffDelay 5 1000 10000 (1 / 2) < 11000 :=
  claim6_backoff_delay_bounds 5 (1 / 2) (by norm_num) (by norm_num)

/-- C10: the client constructor coalesces falsy values with `||`, so a
configured retries = 0 or timeout = 0 is replaced by the defaults 3 and
10000, and no configuration can produce a zero retries or timeout. -/
theorem claim10_zero_config_replaced :
    (mkClientConfig { retries := some 0, timeout := some 0 }).retries = 3 ∧
    (mkClientConfig { retries := some 0, timeout := some 0 }).timeout = 10000 ∧
    ∀ config : ModelSignatureConfig,
      (mkClientConfig config).retries ≠ 0 ∧ (mkClientConfig config).timeout ≠ 0 := by
  refine ⟨rfl, rfl, fun config => ⟨?_, ?_⟩⟩
  · show jsOrInt config.retries 3 ≠ 0
    rcases config.retries with _ | v
    · decide
    · simp only [jsOrInt]
      split
      · decide
      · next h => simpa using h
  · show jsOrInt config.timeout 10000 ≠ 0
    rcases config.timeout with _ | v
    · decide
    · simp only [jsOrInt]
      split
      · decide
      · next h => simpa using h

/-- C8: createSecurePolicy resolves every field from the caller's overrides
when mentioned, and otherwise from the secure preset (failClosed = true,
requireDeploymentId = true, requireModelDigest = true, maxTokenAge = 300),
with the remaining fields falling back to the constructor defaults. -/
theorem claim8_secure_policy_defaults (overrides : PolicyConfigInit) :
    (createSecurePolicyConfig overrides).failClosed = overrides.failClosed.getD true ∧
    (createSecurePolicyConfig overrides).requireDeploymentId =
      overrides.requireDeploymentId.getD true ∧
    (createSecurePolicyConfig overrides).requireModelDigest =
      overrides.requireModelDigest.getD true ∧
    (createSecurePolicyConfig overrides).maxTokenAge =
      some (overrides.maxTokenAge.getD 300) ∧
    (createSecurePolicyConfig overrides).requireBundleVerification =
      overrides.requireBundleVerification.getD false ∧
    (createSecurePolicyConfig overrides).allowedProviders =
      overrides.allowedProviders.getD [] ∧
    (createSecurePolicyConfig overrides).allowedModels =
      overrides.allowedModels.getD [] := by
  obtain ⟨a, b, c, d, e, f, g⟩ := overrides
  refine ⟨?_, ?_, ?_, ?_, ?_, ?_, ?_⟩
  · cases g <;> rfl
  · cases a <;> rfl
  · cases b <;> rfl
  · cases f <;> rfl
  · cases c <;> rfl
  · cases d <;> rfl
  · cases e <;> rfl

/-- C3 counterexample: a decoded payload whose expires_at (respectively
issued_at) is present with value 0 is treated as absent, because the
JavaScript guards `!payload.exp` and `!payload.iat` are truthiness tests and
0 is falsy; the claim demands a non-null answer here. -/
theorem claim3_counterexample :
    ({ exp := some 0 } : JWTPayload).exp ≠ none ∧
    isTokenExpired 100 (some { exp := some 0 }) = none ∧
    ({ iat := some 0 } : JWTPayload).iat ≠ none ∧
    getTokenAge 100 (some { iat := some 0 }) = none := by decide

/-- C3 amended: isTokenExpired is null exactly when the decode is null, or
expires_at is absent, or expires_at is 0 (JavaScript falsiness); otherwise it
answers whether expires_at is strictly below now.  getTokenAge behaves the
same way on issued_at and otherwise returns now minus issued_at. -/
theorem claim3_null_iff_decode_falsy (now : Int) (payload : Option JWTPayload) :
    (isTokenExpired now payload = none ↔
      payload = none ∨ ∃ p, payload = some p ∧ (p.exp = none ∨ p.exp = some 0)) ∧
    (∀ p e, payload = some p → p.exp = some e → e ≠ 0 →
      isTokenExpired now payload = some (decide (e < now))) ∧
    (getTokenAge now payload = none ↔
      payload = none ∨ ∃ p, payload = some p ∧ (p.iat = none ∨ p.iat = some 0)) ∧
    (∀ p i, payload = some p → p.iat = some i → i ≠ 0 →
      getTokenAge now payload = some (now - i)) := by
  refine ⟨?_, ?_, ?_, ?_⟩
  · cases payload with
    | none => simp [isTokenExpired]
    | some p =>
      cases hexp : p.exp with
      | none => simp [isTokenExpired, hexp]
      | some e =>
        by_cases he : e = 0
        · subst he
          simp [isTokenExpired, hexp]
        · simp [isTokenExpired, hexp, he]
  · intro p e hp he hne
    subst hp
    simp [isTokenExpired, he, hne]
  · cases payload with
    | none => simp [getTokenAge]
    | some p =>
      cases hiat : p.iat with
      | none => simp [getTokenAge, hiat]
      | some i =>
        by_cases hi : i = 0
        · subst hi
          simp [getTokenAge, hiat]
        · simp [getTokenAge, hiat, hi]
  · intro p i hp hi hne
    subst hp
    simp [getTokenAge, hi, hne]

/-- Witness for the amended C3 at concrete payloads with non-zero present
fields. -/
theorem claim3_null_iff_decode_falsy_witness :
    isTokenExpired 100 (some { exp := some 50 }) = some (decide ((50 : Int) < 100)) ∧
    getTokenAge 100 (some { iat := some 40 }) = some (100 - 40) :=
  ⟨(claim3_null_iff_decode_falsy 100 (some { exp := some 50 })).2.1
      { exp := some 50 } 50 rfl rfl (by decide),
   (claim3_null_iff_decode_falsy 100 (some { iat := some 40 })).2.2.2
      { iat := some 40 } 40 rfl rfl (by decide)⟩

/-- C2 counterexample: with requireBundleVerification left false, a
rule-checking evaluation over a valid result whose bundle_check is present
with status invalid produces no bundle reason at all, because the whole
bundle rule sits inside the requireBundleVerification guard. -/
theorem claim2_counterexample :
    invalidBundleVerification.claims ≠ none ∧
    invalidBundleVerification.bundle_check = some ⟨.invalid, none⟩ ∧
    BundleStatus.invalid ≠ BundleStatus.verified ∧
    failOpenBareConfig.requireBundleVerification = false ∧
    bundleFailedMessage .invalid ∉
      checkTokenPolicy failOpenBareConfig 0 none invalidBundleVerification := by
  refine ⟨by decide, rfl, by decide, rfl, ?_⟩
  decide

/-- A string differs from another when their first characters differ. -/
theorem ne_of_head_ne {s t : String} (h : s.data.head? ≠ t.data.head?) : s ≠ t :=
  fun he => h (he ▸ rfl)

/-- The bundle-status message always starts with the letter B. -/
theorem bundleFailedMessage_head (st : BundleStatus) :
    (bundleFailedMessage st).data.head? = some 'B' := by
  cases st <;> rfl

/-- The too-old message always starts with the letter T. -/
theorem tooOldMessage_head (age maxAge : Int) :
    (tooOldMessage age maxAge).data.head? = some 'T' := rfl

/-- The provider allowlist message always starts with the letter P. -/
theorem providerNotAllowedMessage_head (id : String) :
    (providerNotAllowedMessage id).data.head? = some 'P' := rfl

/-- The model allowlist message always starts with the letter M. -/
theorem modelNotAllowedMessage_head (id : String) :
    (modelNotAllowedMessage id).data.head? = some 'M' := rfl

/-- Distinct bundle statuses produce distinct bundle-status messages. -/
theorem bundleFailedMessage_inj {s t : BundleStatus}
    (h : bundleFailedMessage s = bundleFailedMessage t) : s = t := by
  cases s <;> cases t <;> first | rfl | exact absurd h (by decide)

/-- The age rule never produces a bundle-status message. -/
theorem bundleFailed_notMem_age (cfg : PolicyConfig) (now : Int)
    (localPayload : Option JWTPayload) (st : BundleStatus) :
    bundleFailedMessage st ∉ ageViolations cfg now localPayload := by
  rcases hm : cfg.maxTokenAge with _ | maxAge
  · simp [ageViolations, hm]
  · rcases ha : getTokenAge now localPayload with _ | age
    · simp only [ageViolations, hm, ha, List.mem_singleton]
      cases st <;> decide
    · by_cases hgt : age > maxAge
      · simp only [ageViolations, hm, ha, hgt, if_pos, List.mem_singleton]
        intro he
        exact ne_of_head_ne
          (by rw [tooOldMessage_head, bundleFailedMessage_head]; decide) he.symm
      · simp [ageViolations, hm, ha, hgt]

/-- The deployment rule never produces a bundle-status message. -/
theorem bundleFailed_notMem_deployment (cfg : PolicyConfig) (claims : JWTClaims)
    (st : BundleStatus) :
    bundleFailedMessage st ∉ deploymentViolations cfg claims := by
  unfold deploymentViolations
  split
  · simp only [List.mem_singleton]
    cases st <;> decide
  · simp

/-- The digest rule never produces a bundle-status message. -/
theorem bundleFailed_notMem_digest (cfg : PolicyConfig) (claims : JWTClaims)
    (st : BundleStatus) :
    bundleFailedMessage st ∉ digestViolations cfg claims := by
  unfold digestViolations
  split
  · simp only [List.mem_singleton]
    cases st <;> decide
  · simp

/-- The provider rule never produces a bundle-status message. -/
theorem bundleFailed_notMem_provider (cfg : PolicyConfig)
    (provider : Option ProviderInfo) (st : BundleStatus) :
    bundleFailedMessage st ∉ providerViolations cfg provider := by
  intro hmem
  have hd : ∀ idStr, bundleFailedMessage st ≠ providerNotAllowedMessage idStr :=
    fun idStr => ne_of_head_ne
      (by rw [bundleFailedMessage_head, providerNotAllowedMessage_head]; decide)
  have hd2 : ∀ idStr, providerNotAllowedMessage idStr ≠ bundleFailedMessage st :=
    fun idStr => (hd idStr).symm
  unfold providerViolations at hmem
  cases hne : cfg.allowedProviders.isEmpty with
  | true => simp [hne] at hmem
  | false =>
    cases provider with
    | none => simp [hne, hd, hd2] at hmem
    | some p => simp [hne, hd, hd2] at hmem

/-- The model rule never produces a bundle-status message. -/
theorem bundleFailed_notMem_model (cfg : PolicyConfig)
    (model : Option ModelInfo) (st : BundleStatus) :
    bundleFailedMessage st ∉ modelViolations cfg model := by
  intro hmem
  have hd : ∀ idStr, bundleFailedMessage st ≠ modelNotAllowedMessage idStr :=
    fun idStr => ne_of_head_ne
      (by rw [bundleFailedMessage_head, modelNotAllowedMessage_head]; decide)
  have hd2 : ∀ idStr, modelNotAllowedMessage idStr ≠ bundleFailedMessage st :=
    fun idStr => (hd idStr).symm
  unfold modelViolations at hmem
  cases hne : cfg.allowedModels.isEmpty with
  | true => simp [hne] at hmem
  | false =>
    cases model with
    | none => simp [hne, hd, hd2] at hmem
    | some m => simp [hne, hd, hd2] at hmem

/-- With the flag on, a missing bundle check yields the bundle-missing
message. -/
theorem bundleViolations_flag_none (cfg : PolicyConfig)
    (h : cfg.requireBundleVerification = true) :
    bundleViolations cfg none =
      ["Bundle verification is required but no bundle information available"] := by
  simp [bundleViolations, h]

/-- With the flag on, a present bundle check yields the status message
exactly on a non-verified status. -/
theorem bundleViolations_flag_some (cfg : PolicyConfig) (bc : BundleCheck)
    (h : cfg.requireBundleVerification = true) :
    bundleViolations cfg (some bc) =
      if bc.status != .verified then [bundleFailedMessage bc.status] else [] := by
  simp [bundleViolations, h]

/-- The bundle rule contributes the status message exactly when the flag is
on and a bundle check with that non-verified status is present. -/
theorem bundleFailed_mem_bundleViolations_iff (cfg : PolicyConfig)
    (bundleCheck : Option BundleCheck) (st : BundleStatus) :
    bundleFailedMessage st ∈ bundleViolations cfg bundleCheck ↔
      (cfg.requireBundleVerification = true ∧ st ≠ .verified ∧
       ∃ bc, bundleCheck = some bc ∧ bc.status = st) := by
  by_cases hreq : cfg.requireBundleVerification = true
  · cases bundleCheck with
    | none =>
      rw [bundleViolations_flag_none cfg hreq]
      simp only [List.mem_singleton]
      constructor
      · intro he
        exact absurd he (by cases st <;> decide)
      · rintro ⟨-, -, bc, hbc, -⟩
        cases hbc
    | some bc =>
      rw [bundleViolations_flag_some cfg bc hreq]
      by_cases hst : bc.status = BundleStatus.verified
      · rw [show (bc.status != BundleStatus.verified) = false by simp [hst]]
        simp only [Bool.false_eq_true, if_false]
        constructor
        · intro h
          exact absurd h (List.not_mem_nil _)
        · rintro ⟨-, hstne, bc2, hbc2, hbst⟩
          injection hbc2 with hbceq
          subst hbceq
          exact absurd (by rw [← hbst]; exact hst) hstne
      · rw [show (bc.status != BundleStatus.verified) = true by simp [hst]]
        rw [if_pos rfl]
        simp only [List.mem_singleton]
        constructor
        · intro he
          have hsteq : st = bc.status := bundleFailedMessage_inj he
          subst hsteq
          exact ⟨hreq, hst, bc, rfl, rfl⟩
        · rintro ⟨-, -, bc2, hbc2, hbst⟩
          injection hbc2 with hbceq
          subst hbceq
          rw [hbst]
  · have hoff : cfg.requireBundleVerification = false := by
      cases h2 : cfg.requireBundleVerification
      · rfl
      · exact absurd h2 hreq
    simp [bundleViolations, hoff]

/-- C2 amended: in a rule-checking evaluation with claims present, the
reasons contain the bundle-status message for a given status exactly when
requireBundleVerification is true, that status is not verified, and
bundle_check is present carrying that status; in particular, with the flag
false a present non-verified bundle_check produces no bundle-status
reason. -/
theorem claim2_bundle_status_reason (cfg : PolicyConfig) (now : Int)
    (localPayload : Option JWTPayload) (v : VerificationResult)
    (claims : JWTClaims) (st : BundleStatus)
    (hclaims : v.claims = some claims) :
    bundleFailedMessage st ∈ checkTokenPolicy cfg now localPayload v ↔
      (cfg.requireBundleVerification = true ∧ st ≠ .verified ∧
       ∃ bc, v.bundle_check = some bc ∧ bc.status = st) := by
  have hage := bundleFailed_notMem_age cfg now localPayload st
  have hdep := bundleFailed_notMem_deployment cfg claims st
  have hdig := bundleFailed_notMem_digest cfg claims st
  have hprov := bundleFailed_notMem_provider cfg v.provider st
  have hmod := bundleFailed_notMem_model cfg v.model st
  simp only [checkTokenPolicy, hclaims, List.mem_append, hage, hdep, hdig, hprov,
    hmod, false_or, or_false, bundleFailed_mem_bundleViolations_iff]

/-- Witness for the amended C2: the biconditional instantiated with the
bundle requirement switched on and an invalid bundle status. -/
theorem claim2_bundle_status_reason_witness :
    bundleFailedMessage .invalid ∈
        checkTokenPolicy bundleOnlyConfig 0 none invalidBundleVerification ↔
      (bundleOnlyConfig.requireBundleVerification = true ∧
       BundleStatus.invalid ≠ BundleStatus.verified ∧
       ∃ bc, invalidBundleVerification.bundle_check = some bc ∧
         bc.status = BundleStatus.invalid) :=
  claim2_bundle_status_reason bundleOnlyConfig 0 none invalidBundleVerification
    {} .invalid rfl

/-- C7 counterexample: at time 2000, with maxTokenAge 300, the verified
claims carry issued_at 1990 (age 10, within the limit) while the local decode
of the token carries issued_at 1000 (age 1000); the evaluation flags the
too-old violation computed from the local decode, so the authority-returned
issued_at does not decide the rule. -/
theorem claim7_counterexample :
    verifiedIatVerification.claims = some { iat := 1990 } ∧
    getTokenAge 2000 (some { iat := some 1990 }) = some 10 ∧
    getTokenAge 2000 (some localIatPayload) = some 1000 ∧
    ((10 : Int) ≤ 300) ∧
    checkTokenPolicy maxAgeOnlyConfig 2000 (some localIatPayload)
      verifiedIatVerification = [tooOldMessage 1000 300] := by
  refine ⟨rfl, rfl, rfl, by decide, ?_⟩
  decide

/-- C7 amended: the max-age rule is computed from the local unverified decode
of the token string; the reasons are invariant under any change to the
verified claims' issued_at, and the too-old reason appears exactly from the
locally derived age. -/
theorem claim7_age_uses_local_decode (cfg : PolicyConfig) (now : Int)
    (localPayload : Option JWTPayload) (v : VerificationResult)
    (claims : JWTClaims) (hclaims : v.claims = some claims) :
    (∀ i : Int,
      checkTokenPolicy cfg now localPayload
        { v with claims := some { claims with iat := i } } =
      checkTokenPolicy cfg now localPayload v) ∧
    (∀ maxAge age, cfg.maxTokenAge = some maxAge →
      getTokenAge now localPayload = some age → age > maxAge →
      tooOldMessage age maxAge ∈ checkTokenPolicy cfg now localPayload v) := by
  obtain ⟨valid, cl, mo, pr, bc, er⟩ := v
  replace hclaims : cl = some claims := hclaims
  subst hclaims
  constructor
  · intro i
    rfl
  · intro maxAge age hmax hage hgt
    have ha : ageViolations cfg now localPayload = [tooOldMessage age maxAge] := by
      simp [ageViolations, hmax, hage, hgt]
    simp [checkTokenPolicy, ha]

/-- Witness for the amended C7: the verified issued_at can be replaced
without changing the reasons, and the locally derived age 1000 produces the
too-old reason. -/
theorem claim7_age_uses_local_decode_witness :
    (checkTokenPolicy maxAgeOnlyConfig 2000 (some localIatPayload)
        { verifiedIatVerification with claims := some { ({ iat := 1990 } : JWTClaims) with iat := 5 } } =
      checkTokenPolicy maxAgeOnlyConfig 2000 (some localIatPayload)
        verifiedIatVerification) ∧
    tooOldMessage 1000 300 ∈
      checkTokenPolicy maxAgeOnlyConfig 2000 (some localIatPayload)
        verifiedIatVerification :=
  ⟨(claim7_age_uses_local_decode maxAgeOnlyConfig 2000 (some localIatPayload)
      verifiedIatVerification { iat := 1990 } rfl).1 5,
   (claim7_age_uses_local_decode maxAgeOnlyConfig 2000 (some localIatPayload)
      verifiedIatVerification { iat := 1990 } rfl).2 300 1000 rfl rfl (by decide)⟩

/-- Inversion of the shared tail of enforcePolicy: a normally returned
result carries allowed = violations.isEmpty and the violations themselves. -/
theorem enforceTail_ok_inv (cfg : PolicyConfig) (violations : List String)
    (verification : VerificationResult) (r : PolicyResult)
    (h : enforceTail cfg violations verification = .ok r) :
    r.allowed = violations.isEmpty ∧ r.reasons = violations := by
  simp only [enforceTail] at h
  split at h
  · exact absurd h (by simp)
  · cases h
    exact ⟨rfl, rfl⟩

/-- The shared tail raises exactly when a violation exists in fail-closed
mode, carrying the joined message and the full violation list. -/
theorem enforceTail_error_of_violations (cfg : PolicyConfig)
    (violations : List String) (verification : VerificationResult)
    (hfc : cfg.failClosed = true) (hne : violations ≠ []) :
    enforceTail cfg violations verification =
      .error ⟨"Policy violation: " ++ String.intercalate ", " violations, violations⟩ := by
  unfold enforceTail
  have hempty : violations.isEmpty = false := by
    cases violations with
    | nil => exact absurd rfl hne
    | cons x xs => rfl
  simp [hempty, hfc]

/-- C9: every PolicyResult that enforcePolicy returns normally satisfies
allowed = true iff the reasons list is empty, over every evaluation path. -/
theorem claim9_allowed_iff_no_reasons (cfg : PolicyConfig) (now : Int)
    (localPayload : Option JWTPayload) (outcome : VerifyOutcome) (r : PolicyResult)
    (h : enforcePolicy cfg now localPayload outcome = .ok r) :
    r.allowed = true ↔ r.reasons = [] := by
  cases outcome with
  | returned v =>
    cases hv : v.valid with
    | false =>
      simp only [enforcePolicy, hv, Bool.not_false, if_pos, Except.ok.injEq] at h
      subst h
      simp [buildResult]
    | true =>
      simp only [enforcePolicy, hv, Bool.not_true, Bool.false_eq_true, if_false] at h
      obtain ⟨h1, h2⟩ := enforceTail_ok_inv cfg _ v r h
      rw [h1, h2]
      simp
  | raised e =>
    simp only [enforcePolicy] at h
    obtain ⟨h1, h2⟩ := enforceTail_ok_inv cfg _ _ r h
    rw [h1, h2]
    simp

/-- Witness for C9 on a fail-open evaluation that returns an allowed
result. -/
theorem claim9_allowed_iff_no_reasons_witness :
    ((buildResult true [] plainValidVerification).allowed = true ↔
      (buildResult true [] plainValidVerification).reasons = []) :=
  claim9_allowed_iff_no_reasons failOpenBareConfig 0 none
    (.returned plainValidVerification) (buildResult true [] plainValidVerification) rfl

/-- C1 counterexample: with fail_closed = true, a transport response with
valid = false yields a non-empty reasons list, yet enforcePolicy returns the
denied PolicyResult normally instead of raising, because the source returns
early before the fail-closed disposition check. -/
theorem claim1_counterexample :
    failClosedBareConfig.failClosed = true ∧
    enforcePolicy failClosedBareConfig 0 none (.returned invalidVerification) =
      .ok (buildResult false ["Token verification failed: Token expired"]
        invalidVerification) ∧
    ["Token verification failed: Token expired"] ≠ ([] : List String) := by
  refine ⟨rfl, rfl, by decide⟩

/-- C1 amended: with fail_closed = true, enforcePolicy raises the
policy-violation signal carrying the full ordered reasons list when the
transport raised, and when rule checking over a valid result finds any
violation; but when the transport returned a structurally valid response
with valid = false, the denied result is returned normally without
raising. -/
theorem claim1_fail_closed_disposition (cfg : PolicyConfig) (now : Int)
    (localPayload : Option JWTPayload) (hfc : cfg.failClosed = true) :
    (∀ e : MSError,
      enforcePolicy cfg now localPayload (.raised e) =
        .error ⟨"Policy violation: " ++ String.intercalate ", "
            ["Verification request failed: " ++ extractVerifyErrorMessage e.message],
          ["Verification request failed: " ++ extractVerifyErrorMessage e.message]⟩) ∧
    (∀ v : VerificationResult, v.valid = true →
      checkTokenPolicy cfg now localPayload v ≠ [] →
      enforcePolicy cfg now localPayload (.returned v) =
        .error ⟨"Policy violation: " ++ String.intercalate ", "
            (checkTokenPolicy cfg now localPayload v),
          checkTokenPolicy cfg now localPayload v⟩) ∧
    (∀ v : VerificationResult, v.valid = false →
      enforcePolicy cfg now localPayload (.returned v) =
        .ok (buildResult false
          ["Token verification failed: " ++ jsTemplateOptStr v.error] v)) := by
  refine ⟨?_, ?_, ?_⟩
  · intro e
    exact enforceTail_error_of_violations cfg
      ["Verification request failed: " ++ extractVerifyErrorMessage e.message]
      { valid := false, error := some (extractVerifyErrorMessage e.message) }
      hfc (by simp)
  · intro v hv hne
    simp only [enforcePolicy, hv, Bool.not_true, Bool.false_eq_true, if_false]
    exact enforceTail_error_of_violations cfg _ v hfc hne
  · intro v hv
    simp [enforcePolicy, hv]

/-- Witness for the amended C1 on all three sources: a raised network error,
a rule violation over a valid result, and the valid = false early return. -/
theorem claim1_fail_closed_disposition_witness :
    (enforcePolicy failClosedBareConfig 0 none
        (.raised ⟨"Network error", .httpError, none⟩) =
      .error ⟨"Policy violation: " ++ String.intercalate ", "
          ["Verification request failed: " ++ extractVerifyErrorMessage "Network error"],
        ["Verification request failed: " ++ extractVerifyErrorMessage "Network error"]⟩) ∧
    (enforcePolicy failClosedBareConfig 0 none (.returned { valid := true }) =
      .error ⟨"Policy violation: " ++ String.intercalate ", "
          (checkTokenPolicy failClosedBareConfig 0 none { valid := true }),
        checkTokenPolicy failClosedBareConfig 0 none { valid := true }⟩) ∧
    (enforcePolicy failClosedBareConfig 0 none (.returned invalidVerification) =
      .ok (buildResult false
        ["Token verification failed: " ++ jsTemplateOptStr invalidVerification.error]
        invalidVerification)) :=
  ⟨(claim1_fail_closed_disposition failClosedBareConfig 0 none rfl).1
      ⟨"Network error", .httpError, none⟩,
   (claim1_fail_closed_disposition failClosedBareConfig 0 none rfl).2.1
      { valid := true } rfl (by decide),
   (claim1_fail_closed_disposition failClosedBareConfig 0 none rfl).2.2
      invalidVerification rfl⟩

/-- A retryable failed attempt never satisfies the terminal rethrow
condition of makeRequest. -/
theorem retryable_not_terminal (s : Nat)
    (h : (s == 0 || decide (500 ≤ s)) = true) :
    (s != 0 && decide (s < 500)) = false := by
  simp only [Bool.or_eq_true, beq_iff_eq, decide_eq_true_eq] at h
  rcases h with h | h
  · simp [h]
  · simp [show ¬s < 500 by omega]

/-- Inside the retry loop, if every attempt before index k fails retryably
and attempt k receives a terminal HTTP failure (truthy status below 500),
the loop surfaces that failure immediately after k + 1 attempts. -/
theorem makeRequestGo_terminal (oracle : Nat → AttemptOutcome α) (retries : Nat)
    (k status : Nat) (msg : String)
    (hk : k ≤ retries) (hpre : ∀ i, i < k → retryableOutcome (oracle i) = true)
    (hor : oracle k = .httpFailure status msg) (hs0 : status ≠ 0) (hs5 : status < 500) :
    ∀ fuel attempt, attempt + fuel = retries + 1 → attempt ≤ k →
      makeRequestGo oracle retries attempt fuel =
        (.error ⟨msg, .httpError, some status⟩, k + 1) := by
  intro fuel
  induction fuel with
  | zero => intro attempt hsum hak; omega
  | succ n ih =>
    intro attempt hsum hak
    by_cases hattk : attempt = k
    · subst hattk
      simp [makeRequestGo, hor, hs0, hs5]
    · have hlt : attempt < k := lt_of_le_of_ne hak hattk
      have hretry := hpre attempt hlt
      have hne : (attempt == retries) = false := by
        simp only [beq_eq_false_iff_ne, ne_eq]
        omega
      cases horc : oracle attempt with
      | success v =>
        rw [horc] at hretry
        simp [retryableOutcome] at hretry
      | httpFailure s m =>
        rw [horc] at hretry
        simp only [retryableOutcome] at hretry
        have hcond := retryable_not_terminal s hretry
        simp only [makeRequestGo, horc, hcond, Bool.false_eq_true, if_false, hne]
        exact ih (attempt + 1) (by omega) (by omega)
      | netFailure m =>
        simp only [makeRequestGo, horc, hne, Bool.false_eq_true, if_false]
        exact ih (attempt + 1) (by omega) (by omega)

/-- Inside the retry loop, if every attempt up to the retry budget fails
retryably, the loop performs all retries + 1 attempts and fails with
REQUEST_FAILED wrapping the attempt count and the last failure's message. -/
theorem makeRequestGo_exhaust (oracle : Nat → AttemptOutcome α) (retries : Nat)
    (hall : ∀ i, i ≤ retries → retryableOutcome (oracle i) = true) :
    ∀ fuel attempt, attempt + fuel = retries + 1 → attempt ≤ retries →
      makeRequestGo oracle retries attempt fuel =
        (.error ⟨requestFailedMessage retries (outcomeMessage (oracle retries)),
          .requestFailed, none⟩, retries + 1) := by
  intro fuel
  induction fuel with
  | zero => intro attempt hsum ha; omega
  | succ n ih =>
    intro attempt hsum ha
    have hretry := hall attempt ha
    by_cases hend : attempt = retries
    · subst hend
      cases horc : oracle attempt with
      | success v =>
        rw [horc] at hretry
        simp [retryableOutcome] at hretry
      | httpFailure s m =>
        rw [horc] at hretry
        simp only [retryableOutcome] at hretry
        have hcond := retryable_not_terminal s hretry
        simp [makeRequestGo, horc, hcond, outcomeMessage]
      | netFailure m =>
        simp [makeRequestGo, horc, outcomeMessage]
    · have hne : (attempt == retries) = false := by
        simp only [beq_eq_false_iff_ne, ne_eq]
        omega
      cases horc : oracle attempt with
      | success v =>
        rw [horc] at hretry
        simp [retryableOutcome] at hretry
      | httpFailure s m =>
        rw [horc] at hretry
        simp only [retryableOutcome] at hretry
        have hcond := retryable_not_terminal s hretry
        simp only [makeRequestGo, horc, hcond, Bool.false_eq_true, if_false, hne]
        exact ih (attempt + 1) (by omega) (by omega)
      | netFailure m =>
        simp only [makeRequestGo, horc, hne, Bool.false_eq_true, if_false]
        exact ih (attempt + 1) (by omega) (by omega)

/-- C5: an attempt failing with a truthy status below 500 is surfaced
immediately as an HTTP_ERROR after no further attempt; if every attempt
fails retryably (status 500 or above, a zero status, a network error or a
timeout), all retries + 1 attempts run and the call fails with
REQUEST_FAILED wrapping the attempt count retries + 1 and the last
failure's message. -/
theorem claim5_retry_protocol :
    (∀ (α : Type) (oracle : Nat → AttemptOutcome α) (retries k status : Nat)
      (msg : String),
      k ≤ retries → (∀ i, i < k → retryableOutcome (oracle i) = true) →
      oracle k = .httpFailure status msg → status ≠ 0 → status < 500 →
      makeRequest oracle retries = (.error ⟨msg, .httpError, some status⟩, k + 1)) ∧
    (∀ (α : Type) (oracle : Nat → AttemptOutcome α) (retries : Nat),
      (∀ i, i ≤ retries → retryableOutcome (oracle i) = true) →
      makeRequest oracle retries =
        (.error ⟨requestFailedMessage retries (outcomeMessage (oracle retries)),
          .requestFailed, none⟩, retries + 1)) := by
  constructor
  · intro α oracle retries k status msg hk hpre hor hs0 hs5
    exact makeRequestGo_terminal oracle retries k status msg hk hpre hor hs0 hs5
      (retries + 1) 0 (by omega) (by omega)
  · intro α oracle retries hall
    exact makeRequestGo_exhaust oracle retries hall (retries + 1) 0 (by omega) (by omega)

/-- Witness for C5: a network failure followed by HTTP 404 stops after the
second attempt with the terminal error; three retryable failures with
retries = 2 exhaust all 3 attempts and wrap the last message. -/
theorem claim5_retry_protocol_witness :
    makeRequest mixedFailureOracle 3 =
      (.error ⟨"not found", .httpError, some 404⟩, 2) ∧
    makeRequest alwaysRetryableOracle 2 =
      (.error ⟨requestFailedMessage 2 (outcomeMessage (alwaysRetryableOracle 2)),
        .requestFailed, none⟩, 3) :=
  ⟨claim5_retry_protocol.1 Nat mixedFailureOracle 3 1 404 "not found"
      (by decide) (by decide) rfl (by decide) (by decide),
   claim5_retry_protocol.2 Nat alwaysRetryableOracle 2 (by decide)⟩

/-- The period is outside the base64url alphabet. -/
theorem isBase64UrlChar_dot : isBase64UrlChar '.' = false := by decide

/-- Interleaving a three-element list with single periods. -/
theorem intercalate_dot_three (a b c : List Char) :
    List.intercalate ['.'] [a, b, c] = a ++ '.' :: (b ++ '.' :: c) := by
  simp [List.intercalate]

/-- The code's format check agrees with the specification's reading: exactly
three dot-separated non-empty base64url segments. -/
theorem isValidTokenFormat_iff_spec (token : List Char) :
    isValidTokenFormat token = true ↔ ValidFormatSpec token := by
  constructor
  · intro h
    unfold isValidTokenFormat at h
    by_cases hemp : token.isEmpty = true
    · simp [hemp] at h
    · rw [if_neg hemp] at h
      simp only [Bool.and_eq_true, beq_iff_eq, List.all_eq_true] at h
      obtain ⟨hlen, hall⟩ := h
      obtain ⟨a, b, c, habc⟩ := List.length_eq_three.mp hlen
      have htok : token = a ++ '.' :: (b ++ '.' :: c) := by
        have h1 := List.intercalate_splitOn token '.'
        rw [habc, intercalate_dot_three] at h1
        exact h1.symm
      rw [habc] at hall
      refine ⟨a, b, c, htok, ?_, ?_, ?_⟩
      · have ha := hall a (by simp)
        simp only [Bool.and_eq_true, Bool.not_eq_eq_eq_not, Bool.not_true,
          List.all_eq_true] at ha
        exact ⟨by simpa using ha.1, fun ch hch => ha.2 ch hch⟩
      · have hb := hall b (by simp)
        simp only [Bool.and_eq_true, Bool.not_eq_eq_eq_not, Bool.not_true,
          List.all_eq_true] at hb
        exact ⟨by simpa using hb.1, fun ch hch => hb.2 ch hch⟩
      · have hc := hall c (by simp)
        simp only [Bool.and_eq_true, Bool.not_eq_eq_eq_not, Bool.not_true,
          List.all_eq_true] at hc
        exact ⟨by simpa using hc.1, fun ch hch => hc.2 ch hch⟩
  · rintro ⟨a, b, c, htok, ⟨ha0, haC⟩, ⟨hb0, hbC⟩, ⟨hc0, hcC⟩⟩
    have hnodot : ∀ l ∈ [a, b, c], '.' ∉ l := by
      intro l hl hdot
      simp only [List.mem_cons, List.not_mem_nil, or_false] at hl
      rcases hl with rfl | rfl | rfl
      · exact absurd (haC '.' hdot) (by simp [isBase64UrlChar_dot])
      · exact absurd (hbC '.' hdot) (by simp [isBase64UrlChar_dot])
      · exact absurd (hcC '.' hdot) (by simp [isBase64UrlChar_dot])
    have hsplit : token.splitOn '.' = [a, b, c] := by
      rw [htok, ← intercalate_dot_three]
      exact List.splitOn_intercalate [a, b, c] '.' hnodot (by simp)
    have hne : token.isEmpty = false := by
      rw [htok]
      cases a <;> rfl
    have hseg : ∀ s : List Char, s ≠ [] → (∀ ch ∈ s, isBase64UrlChar ch = true) →
        (!s.isEmpty && s.all isBase64UrlChar) = true := by
      intro s hs hallseg
      rw [Bool.and_eq_true]
      refine ⟨?_, by rw [List.all_eq_true]; exact hallseg⟩
      cases s with
      | nil => exact absurd rfl hs
      | cons x xstail => rfl
    unfold isValidTokenFormat
    rw [if_neg (by simp [hne])]
    show ((token.splitOn '.').length == 3 &&
      (token.splitOn '.').all fun part => !part.isEmpty && part.all isBase64UrlChar) = true
    rw [hsplit, Bool.and_eq_true]
    refine ⟨rfl, ?_⟩
    rw [List.all_eq_true]
    intro part hpart
    simp only [List.mem_cons, List.not_mem_nil, or_false] at hpart
    rcases hpart with rfl | rfl | rfl
    · exact hseg _ ha0 haC
    · exact hseg _ hb0 hbC
    · exact hseg _ hc0 hcC

/-- C4: isValidTokenFormat holds exactly on strings of three dot-separated
non-empty base64url segments, and on any token failing the check both
verifyToken and bindResponse fail with the INVALID_FORMAT error after zero
network attempts, whatever the transport would have answered. -/
theorem claim4_format_gate :
    (∀ token : List Char, isValidTokenFormat token = true ↔ ValidFormatSpec token) ∧
    (∀ (α : Type) (oracle : Nat → AttemptOutcome α) (retries : Nat)
      (token : List Char) (responseText : String),
      isValidTokenFormat token = false →
      verifyToken oracle retries token = (.error invalidFormatError, 0) ∧
      bindResponse oracle retries token responseText =
        (.error invalidFormatError, 0)) := by
  refine ⟨isValidTokenFormat_iff_spec, ?_⟩
  intro α oracle retries token responseText h
  constructor
  · simp [verifyToken, h]
  · simp [bindResponse, h]

/-- Witness for C4: a well-formed token satisfies the specification's
predicate, and a two-segment token is rejected locally with zero network
attempts. -/
theorem claim4_format_gate_witness :
    ValidFormatSpec "a.eyJpYXQiOjB9.c".toList ∧
    verifyToken alwaysNetFailureOracle 3 "a.b".toList =
      (.error invalidFormatError, 0) ∧
    bindResponse alwaysNetFailureOracle 3 "a.b".toList "hello" =
      (.error invalidFormatError, 0) :=
  ⟨(claim4_format_gate.1 "a.eyJpYXQiOjB9.c".toList).mp (by decide),
   (claim4_format_gate.2 Nat alwaysNetFailureOracle 3 "a.b".toList "hello" (by decide)).1,
   (claim4_format_gate.2 Nat alwaysNetFailureOracle 3 "a.b".toList "hello" (by decide)).2⟩
